import Mathlib

/-!
# Verification of the agent-saathi inter-agent messaging slice

Shallow embedding of the message bus (`blogger_agent/utils/a2a_protocol.py`),
the parallel task runner (`blogger_agent/utils/parallel_agents.py`), the
per-user memory store with context compaction
(`blogger_agent/agents/emotional_support_agent.py`) and the long-running
operation lifecycle (`blogger_agent/utils/long_running.py`).

Conventions of the embedding:
* Python `datetime.now()` values are modelled by an abstract clock `Nat`
  passed explicitly to every operation that reads the clock.
* Python dicts are modelled by insertion-ordered association lists
  (`List (String × α)`) with lookup `dictGet` and assignment `dictSet`,
  matching CPython's key-order semantics.
* Code that may raise is modelled in `Except String`; an exception value is
  the exception's message (`str(e)`).
* Message `content` dicts are modelled by the parts the bus actually
  inspects: the `task` sub-dict (key presence of `journal_entry` and
  `subjects`, which is all `_handle_task_request` routes on) and the size of
  the `data` sub-dict (all `_handle_data_sharing` uses).
-/

namespace AgentSaathi

/-! ## Python-dict association lists -/

/-- Lookup in an insertion-ordered dict: `d[k]` as an `Option`. -/
def dictGet {α : Type} (d : List (String × α)) (k : String) : Option α :=
  match d with
  | [] => none
  | (k0, v0) :: rest => if k0 = k then some v0 else dictGet rest k

/-- Assignment `d[k] = v` on an insertion-ordered dict: updates the value in
place if `k` is present, otherwise appends the new binding at the end
(CPython dict semantics). -/
def dictSet {α : Type} (d : List (String × α)) (k : String) (v : α) :
    List (String × α) :=
  match d with
  | [] => [(k, v)]
  | (k0, v0) :: rest =>
    if k0 = k then (k0, v) :: rest else (k0, v0) :: dictSet rest k v

/-- The dict's keys in insertion order. -/
def dictKeys {α : Type} (d : List (String × α)) : List String :=
  d.map Prod.fst

theorem dictGet_dictSet_self {α : Type} (d : List (String × α)) (k : String)
    (v : α) : dictGet (dictSet d k v) k = some v := by
  induction d with
  | nil => simp [dictGet, dictSet]
  | cons p rest ih =>
    obtain ⟨k0, v0⟩ := p
    by_cases h : k0 = k <;> simp [dictGet, dictSet, h, ih]

theorem dictGet_dictSet_ne {α : Type} (d : List (String × α)) (k k' : String)
    (v : α) (hne : k' ≠ k) : dictGet (dictSet d k v) k' = dictGet d k' := by
  have hkk : ¬ k = k' := fun h => hne h.symm
  induction d with
  | nil => simp [dictGet, dictSet, hkk]
  | cons p rest ih =>
    obtain ⟨k0, v0⟩ := p
    by_cases h : k0 = k
    · subst h
      simp [dictGet, dictSet, hkk]
    · simp [dictGet, dictSet, h, ih]

theorem dictSet_of_get_none {α : Type} (d : List (String × α)) (k : String)
    (v : α) (h : dictGet d k = none) : dictSet d k v = d ++ [(k, v)] := by
  induction d with
  | nil => simp [dictSet]
  | cons p rest ih =>
    obtain ⟨k0, v0⟩ := p
    by_cases hk : k0 = k
    · simp [dictGet, hk] at h
    · simp [dictGet, hk] at h
      simp [dictSet, hk, ih h]

/-! ## A2A protocol: message model (`a2a_protocol.py` lines 8–58) -/

/-- The `MessageType` enum. -/
inductive MessageType where
  | TASK_REQUEST
  | TASK_RESULT
  | DATA_SHARING
  | COORDINATION
  | ERROR
  deriving DecidableEq, Repr

/-- Embeds `MessageType.value`: the string value of each enum member. -/
def MessageType.value : MessageType → String
  | .TASK_REQUEST => "task_request"
  | .TASK_RESULT => "task_result"
  | .DATA_SHARING => "data_sharing"
  | .COORDINATION => "coordination"
  | .ERROR => "error"

/-- The enum constructor `MessageType(s)`: returns the member with value `s`,
`none` when Python would raise `ValueError`. -/
def MessageType.fromValue : String → Option MessageType
  | "task_request" => some .TASK_REQUEST
  | "task_result" => some .TASK_RESULT
  | "data_sharing" => some .DATA_SHARING
  | "coordination" => some .COORDINATION
  | "error" => some .ERROR
  | _ => none

theorem MessageType.fromValue_value (mt : MessageType) :
    MessageType.fromValue mt.value = some mt := by
  cases mt <;> rfl

/-- The `task` sub-dict of a message content, reduced to the key presence
that `_handle_task_request` routes on (`"journal_entry" in task_data`,
`"subjects" in task_data`). -/
structure TaskData where
  hasJournalEntry : Bool
  hasSubjects : Bool
  deriving DecidableEq, Repr

/-- A message `content` dict, reduced to what the communicator inspects:
`content.get("task", {})` (`none` models an absent key, read back as the
empty dict) and `len(content.get("data", {}))`. -/
structure Content where
  task : Option TaskData
  dataItems : Nat
  deriving DecidableEq, Repr

/-- Embeds `A2AMessage`: the envelope's fields after `__init__`.  `metadata` is the
constant `{"version": "1.0", "protocol": "A2A"}` and is kept only in the
dict form. -/
structure A2AMessage where
  message_id : String
  message_type : MessageType
  from_agent : String
  to_agent : String
  content : Content
  timestamp : Nat
  deriving DecidableEq, Repr

/-- Embeds `A2AMessage.__init__`: `message_id` defaults to
`"msg_" ++ repr now` (from `f"msg_{datetime.now().timestamp()}"`), and
`timestamp` is stamped with the construction-time clock
(`datetime.now().isoformat()`). -/
def A2AMessage.init (message_type : MessageType)
    (from_agent to_agent : String) (content : Content)
    (message_id : Option String) (now : Nat) : A2AMessage :=
  { message_id := message_id.getD ("msg_" ++ toString now)
    message_type := message_type
    from_agent := from_agent
    to_agent := to_agent
    content := content
    timestamp := now }

/-- The dictionary produced by `A2AMessage.to_dict`; the two `metadata`
entries are inlined as fields. -/
structure MessageDict where
  message_id : String
  message_type : String
  from_agent : String
  to_agent : String
  content : Content
  timestamp : Nat
  metadata_version : String
  metadata_protocol : String
  deriving DecidableEq, Repr

/-- Embeds `A2AMessage.to_dict`. -/
def A2AMessage.to_dict (m : A2AMessage) : MessageDict :=
  { message_id := m.message_id
    message_type := m.message_type.value
    from_agent := m.from_agent
    to_agent := m.to_agent
    content := m.content
    timestamp := m.timestamp
    metadata_version := "1.0"
    metadata_protocol := "A2A" }

/-- Embeds `A2AMessage.from_dict`: re-runs `__init__` with the dict's
`message_type`, `from_agent`, `to_agent`, `content` and `message_id`.  The
stored `timestamp` is NOT passed through; `__init__` stamps the current
clock `now`.  `MessageType(data["message_type"])` raises on an unknown
value, hence the `Option`. -/
def A2AMessage.from_dict (data : MessageDict) (now : Nat) :
    Option A2AMessage :=
  (MessageType.fromValue data.message_type).map fun mt =>
    A2AMessage.init mt data.from_agent data.to_agent data.content
      (some data.message_id) now

/-- A concrete envelope constructed at clock 0, for counterexamples. -/
def e0 : A2AMessage :=
  A2AMessage.init MessageType.COORDINATION "alice" "bob"
    { task := none, dataItems := 0 } none 0

/-! ## A2A protocol: communicator (`a2a_protocol.py` lines 60–196) -/

/-- A registered agent instance, reduced to what `_handle_task_request`
inspects: the two `hasattr` capability flags and the two task methods.  A
method is modelled by the outcome of calling it on the routed task data:
`Except.error e` is a raised exception with message `e`, `Except.ok r` a
normal return whose value is abstracted to a `String`. -/
structure Agent where
  hasProcessEmotionalJournal : Bool
  hasCreateStudyPlan : Bool
  process_emotional_journal : TaskData → Except String String
  create_study_plan : TaskData → Except String String

/-- The structured result dict returned by `send_message` and its helpers;
one constructor per `status` value, carrying that status's fields. -/
inductive SendResult where
  /-- Dict `{status: "delivered", message_type: mt}` for kinds other than
  task-request and data-sharing. -/
  | delivered (message_type : String)
  /-- Dict `{status: "queued", message_id, reason}` when the target is not
  registered. -/
  | queued (message_id : String) (reason : String)
  /-- Dict `{status: "task_completed", result, agent_type}`. -/
  | task_completed (result : String) (agent_type : String)
  /-- Dict `{status: "task_rejected", reason}`. -/
  | task_rejected (reason : String)
  /-- Dict `{status: "data_received", data_items, agent}`. -/
  | data_received (data_items : Nat) (agent : String)
  /-- Dict `{status: "delivery_failed", error}` from `_deliver_message`'s
  exception handler. -/
  | delivery_failed (error : String)
  /-- Dict `{status: "error", error}` from `send_message`'s own exception
  handler; unreachable in the embedding because the pure model of the send
  path raises nothing. -/
  | send_error (error : String)
  deriving DecidableEq, Repr

/-- The communicator state: the global send log `message_queue`, the
`agent_registry` dict and the `conversation_history` dict keyed by the
string `f"{from_agent}_{to_agent}"`. -/
structure A2ACommunicator where
  message_queue : List A2AMessage
  agent_registry : List (String × Agent)
  conversation_history : List (String × List MessageDict)

/-- Embeds `A2ACommunicator.__init__`: all three containers start empty. -/
def A2ACommunicator.empty : A2ACommunicator :=
  { message_queue := [], agent_registry := [], conversation_history := [] }

/-- Embeds `register_agent`. -/
def register_agent (c : A2ACommunicator) (agent_name : String)
    (agent_instance : Agent) : A2ACommunicator :=
  { c with agent_registry := dictSet c.agent_registry agent_name agent_instance }

/-- Embeds `message.content.get("task", {})` as computed at the top of
`_handle_task_request`: an absent `task` key reads back as the empty dict,
which contains neither routing key. -/
def task_data_of (m : A2AMessage) : TaskData :=
  m.content.task.getD { hasJournalEntry := false, hasSubjects := false }

/-- Embeds `_handle_task_request`: routes on `hasattr` plus key presence, journal
check first; an exception raised by the called method propagates (to be
caught in `_deliver_message`).  When neither shape matches, returns the
rejection dict. -/
def handle_task_request (agent : Agent) (m : A2AMessage) :
    Except String SendResult :=
  let task_data := task_data_of m
  if agent.hasProcessEmotionalJournal && task_data.hasJournalEntry then
    (agent.process_emotional_journal task_data).map fun result =>
      SendResult.task_completed result "emotional_support"
  else if agent.hasCreateStudyPlan && task_data.hasSubjects then
    (agent.create_study_plan task_data).map fun result =>
      SendResult.task_completed result "study_planning"
  else
    pure (SendResult.task_rejected "unsupported_task_type")

/-- Embeds `_handle_data_sharing`: reports `len(content.get("data", {}))` items;
it never calls into the agent, so it cannot raise. -/
def handle_data_sharing (m : A2AMessage) : SendResult :=
  SendResult.data_received m.content.dataItems m.to_agent

/-- The body of `_deliver_message`'s `try` block after the registry lookup:
dispatch on the message type. -/
def dispatch_message (target_agent : Agent) (m : A2AMessage) :
    Except String SendResult :=
  match m.message_type with
  | .TASK_REQUEST => handle_task_request target_agent m
  | .DATA_SHARING => pure (handle_data_sharing m)
  | mt => pure (SendResult.delivered mt.value)

/-- Embeds `_deliver_message`: any exception raised inside the `try` block —
including the `KeyError` of a missing registry entry — is caught and turned
into a `delivery_failed` result. -/
def deliver_message (c : A2ACommunicator) (m : A2AMessage) : SendResult :=
  match dictGet c.agent_registry m.to_agent with
  | none => SendResult.delivery_failed ("KeyError: " ++ m.to_agent)
  | some target_agent =>
    match dispatch_message target_agent m with
    | .ok response => response
    | .error e => SendResult.delivery_failed e

/-- Embeds `send_message`: appends `m.to_dict()` to the pairwise conversation
history and `m` to the global queue, then attempts delivery when the target
is registered, else returns `queued`.  The surrounding `try` never fires in
the pure model, so the `{status: "error"}` branch is dead. -/
def send_message (c : A2ACommunicator) (m : A2AMessage) :
    A2ACommunicator × SendResult :=
  let conv_key := m.from_agent ++ "_" ++ m.to_agent
  let hist := (dictGet c.conversation_history conv_key).getD []
  let c1 : A2ACommunicator :=
    { c with
      conversation_history :=
        dictSet c.conversation_history conv_key (hist ++ [m.to_dict])
      message_queue := c.message_queue ++ [m] }
  if (dictGet c1.agent_registry m.to_agent).isSome then
    (c1, deliver_message c1 m)
  else
    (c1, SendResult.queued m.message_id "agent_not_registered")

/-- One iteration of `broadcast_message`'s loop over the registry's keys:
skip the sender, otherwise construct a fresh envelope, send it through the
evolving communicator state and record the result under the target's
name. -/
def broadcast_step (from_agent : String) (message_type : MessageType)
    (content : Content) (now : Nat)
    (acc : A2ACommunicator × List (String × SendResult))
    (agent_name : String) : A2ACommunicator × List (String × SendResult) :=
  if agent_name ≠ from_agent then
    let m := A2AMessage.init message_type from_agent agent_name content none now
    let sent := send_message acc.1 m
    (sent.1, dictSet acc.2 agent_name sent.2)
  else acc

/-- Embeds `broadcast_message`: iterates over the registry keys in insertion order
(the registry itself is never mutated by `send_message`, so iterating the
pre-computed key list is faithful), starting from an empty `results`
dict. -/
def broadcast_message (c : A2ACommunicator) (from_agent : String)
    (message_type : MessageType) (content : Content) (now : Nat) :
    A2ACommunicator × List (String × SendResult) :=
  (dictKeys c.agent_registry).foldl
    (broadcast_step from_agent message_type content now) (c, [])

/-! ## Parallel task runner (`parallel_agents.py`)

Each registered task is `(agent_func, args, kwargs)`; we model the closure
by the outcome of running it: `Except.error e` when the call raises with
message `e`, `Except.ok v` for a normal return (abstracted to a `String`).
`execute_parallel` runs every task on its own thread and joins them all;
each thread writes only its own `results[name]` entry (atomic under the
GIL), so the final mapping is deterministic and we model it in registration
order. -/

/-- The executor's `agents` dict. -/
structure ParallelAgentExecutor where
  agents : List (String × Except String String)

/-- Embeds `ParallelAgentExecutor.__init__`. -/
def ParallelAgentExecutor.empty : ParallelAgentExecutor := { agents := [] }

/-- Embeds `add_agent`: dict assignment, so a repeated name replaces the earlier
task. -/
def add_agent (ex : ParallelAgentExecutor) (name : String)
    (agent_func : Except String String) : ParallelAgentExecutor :=
  { agents := dictSet ex.agents name agent_func }

/-- A task's entry in the `results` dict: the returned value, or the
`{"error": str(e)}` dict built in `run_agent`'s exception handler. -/
inductive TaskOutcome where
  | success (value : String)
  | error_entry (message : String)
  deriving DecidableEq, Repr

/-- The body of the per-thread `run_agent` helper: catch an exception and
store it as an error entry, otherwise store the result. -/
def run_agent : Except String String → TaskOutcome
  | .ok v => TaskOutcome.success v
  | .error e => TaskOutcome.error_entry e

/-- Embeds `execute_parallel`: the joined `results` mapping, one entry per
registered task. -/
def execute_parallel (ex : ParallelAgentExecutor) :
    List (String × TaskOutcome) :=
  ex.agents.map fun p => (p.1, run_agent p.2)

/-! ## Memory bank and context compaction (`emotional_support_agent.py`)

`EmotionalMemoryBank.memories` is a dict from `user_id` to the user's list
of records `{'data': ..., 'timestamp': ..., 'pattern_id': ...}`.  The
`data` payload is abstracted to a `String`. -/

/-- One stored record of `EmotionalMemoryBank`. -/
structure MemRecord where
  data : String
  timestamp : Nat
  pattern_id : String
  deriving DecidableEq, Repr

/-- The `memories` dict. -/
abbrev MemoryBank := List (String × List MemRecord)

/-- Embeds `store_emotional_pattern`: creates the user's list if absent, then
appends a record whose `pattern_id` is
`f"pattern_{len(self.memories[user_id]) + 1}"` — the label is derived from
the CURRENT length of the list, whatever that length is. -/
def store_emotional_pattern (memories : MemoryBank) (user_id : String)
    (emotion_data : String) (now : Nat) : MemoryBank :=
  let history := (dictGet memories user_id).getD []
  dictSet memories user_id
    (history ++
      [{ data := emotion_data
         timestamp := now
         pattern_id := "pattern_" ++ toString (history.length + 1) }])

/-- Python's slice `l[-k:]`.  CAUTION: `-0 == 0`, so for `k = 0` this is
`l[0:]`, the whole list, not the empty list. -/
def pySliceLast {α : Type} (l : List α) (k : Nat) : List α :=
  if k = 0 then l else l.drop (l.length - k)

/-- The report dict returned by `compact_memory` (the `timestamp` entry of
the compacted report is omitted; it carries no information about the
store). -/
inductive CompactReport where
  /-- Dict `{compacted: True, before, after, removed, max_entries, ...}`. -/
  | compacted (before : Nat) (after : Nat) (removed : Nat)
      (max_entries : Nat)
  /-- Dict `{compacted: False, reason: "no_compaction_needed"}`. -/
  | no_compaction_needed
  deriving DecidableEq, Repr

/-- Embeds `EmotionalSupportAgent.compact_memory`: when the user's history is
longer than `max_entries`, replace it by `history[-max_entries:]` and
report; otherwise (user absent, or length within the cap) leave the bank
unchanged and report no compaction. -/
def compact_memory (memories : MemoryBank) (user_id : String)
    (max_entries : Nat) : MemoryBank × CompactReport :=
  match dictGet memories user_id with
  | some history =>
    if history.length > max_entries then
      let compacted := pySliceLast history max_entries
      (dictSet memories user_id compacted,
       CompactReport.compacted history.length compacted.length
         (history.length - compacted.length) max_entries)
    else (memories, CompactReport.no_compaction_needed)
  | none => (memories, CompactReport.no_compaction_needed)

/-- A sequence of `store_emotional_pattern` calls for one user, oldest
first; each list element is `(emotion_data, clock)`. -/
def appendAll (memories : MemoryBank) (user_id : String)
    (ds : List (String × Nat)) : MemoryBank :=
  ds.foldl (fun mem d => store_emotional_pattern mem user_id d.1 d.2) memories

/-! ## Long-running operations (`long_running.py`)

The thread launched by `start` is modelled by two events: the launch itself
(the second component of `start`) and `wrapper_finish`, the effect of the
`_wrapper` body when the target function returns or raises. -/

/-- The `OperationStatus` enum. -/
inductive OperationStatus where
  | PENDING
  | RUNNING
  | PAUSED
  | COMPLETED
  | FAILED
  deriving DecidableEq, Repr

/-- The mutable fields of `LongRunningOperation`; `pause_event` is the
`threading.Event` as a Bool (`true` = set). -/
structure LongRunningOperation where
  operation_id : String
  description : String
  status : OperationStatus
  progress : Nat
  result : Option String
  error : Option String
  should_stop : Bool
  pause_event : Bool
  created_at : Nat
  updated_at : Nat
  deriving DecidableEq, Repr

/-- Embeds `LongRunningOperation.__init__`: status `PENDING`, no result or error,
`pause_event` initially cleared. -/
def LongRunningOperation.init (operation_id description : String)
    (now : Nat) : LongRunningOperation :=
  { operation_id := operation_id
    description := description
    status := OperationStatus.PENDING
    progress := 0
    result := none
    error := none
    should_stop := false
    pause_event := false
    created_at := now
    updated_at := now }

/-- The synchronous part of `start`: when the status is `RUNNING` it logs
and returns without touching the state or launching a thread (second
component `false`); from EVERY other status it marks the operation running,
clears `should_stop`, sets the pause event and launches the worker thread
(second component `true`). -/
def LongRunningOperation.start (op : LongRunningOperation) (now : Nat) :
    LongRunningOperation × Bool :=
  if op.status = OperationStatus.RUNNING then
    (op, false)
  else
    ({ op with
        status := OperationStatus.RUNNING
        should_stop := false
        pause_event := true
        updated_at := now }, true)

/-- The effect of `_wrapper` once `target_function` finishes: on a normal
return the result is stored first, then — unless `should_stop` was set —
the status becomes `COMPLETED` with progress 100; on an exception the
status becomes `FAILED` and the message is stored.  The `finally` block
refreshes `updated_at`. -/
def wrapper_finish (op : LongRunningOperation)
    (outcome : Except String String) (now : Nat) : LongRunningOperation :=
  match outcome with
  | .ok v =>
    if !op.should_stop then
      { op with
          result := some v
          status := OperationStatus.COMPLETED
          progress := 100
          updated_at := now }
    else { op with result := some v, updated_at := now }
  | .error e =>
    { op with
        status := OperationStatus.FAILED
        error := some e
        updated_at := now }

/-- Embeds `stop`: unconditionally sets `should_stop` and forces the status to
`FAILED`, whatever the current status; `result` and `error` are left
untouched. -/
def LongRunningOperation.stop (op : LongRunningOperation) (now : Nat) :
    LongRunningOperation :=
  { op with
      should_stop := true
      status := OperationStatus.FAILED
      updated_at := now }

/-! ## Theorems -/

theorem send_message_history (c : A2ACommunicator) (m : A2AMessage) :
    (send_message c m).1.conversation_history =
      dictSet c.conversation_history (m.from_agent ++ "_" ++ m.to_agent)
        ((dictGet c.conversation_history
          (m.from_agent ++ "_" ++ m.to_agent)).getD [] ++ [m.to_dict]) := by
  unfold send_message
  by_cases h : (dictGet c.agent_registry m.to_agent).isSome <;> simp [h]

theorem send_message_registry (c : A2ACommunicator) (m : A2AMessage) :
    (send_message c m).1.agent_registry = c.agent_registry := by
  unfold send_message
  by_cases h : (dictGet c.agent_registry m.to_agent).isSome <;> simp [h]

/-- Claim C1: every `send_message` call appends exactly the sent envelope's
dict to the `(from, to)` pairwise conversation history — the history after
the call is the history before plus `m.to_dict()` at the end, so its length
grows by exactly one — and this holds unconditionally, for every delivery
outcome (`delivered`, `task_completed`, `task_rejected`, `delivery_failed`
or `queued` for an unregistered target), because the append happens before
delivery is attempted. -/
theorem claim_C1 (c : A2ACommunicator) (m : A2AMessage) :
    dictGet (send_message c m).1.conversation_history
        (m.from_agent ++ "_" ++ m.to_agent) =
      some ((dictGet c.conversation_history
        (m.from_agent ++ "_" ++ m.to_agent)).getD [] ++ [m.to_dict]) ∧
    ((dictGet (send_message c m).1.conversation_history
        (m.from_agent ++ "_" ++ m.to_agent)).getD []).length =
      ((dictGet c.conversation_history
        (m.from_agent ++ "_" ++ m.to_agent)).getD []).length + 1 := by
  have h : dictGet (send_message c m).1.conversation_history
      (m.from_agent ++ "_" ++ m.to_agent) =
      some ((dictGet c.conversation_history
        (m.from_agent ++ "_" ++ m.to_agent)).getD [] ++ [m.to_dict]) := by
    rw [send_message_history]
    exact dictGet_dictSet_self _ _ _
  refine ⟨h, ?_⟩
  rw [h]
  simp

/-- Claim C2 (amended): `from_dict (to_dict e)` succeeds and reproduces
`message_id`, `message_type` (mapped back to the same enum member),
`from_agent`, `to_agent` and `content` — but NOT the timestamp, which is
re-stamped with the clock at parse time. -/
theorem claim_C2 (e : A2AMessage) (now2 : Nat) :
    A2AMessage.from_dict (A2AMessage.to_dict e) now2 =
      some { message_id := e.message_id
             message_type := e.message_type
             from_agent := e.from_agent
             to_agent := e.to_agent
             content := e.content
             timestamp := now2 } := by
  simp [A2AMessage.from_dict, A2AMessage.to_dict, A2AMessage.init,
    MessageType.fromValue_value]

/-- Claim C2 counterexample: for the concrete envelope `e0` created at
clock 0 and re-parsed at clock 1, the round-trip does not preserve the
timestamp, so `from_dict (to_dict e0)` does not reproduce `e0`
field-for-field. -/
theorem claim_C2_counterexample :
    (A2AMessage.from_dict (A2AMessage.to_dict e0) 1).map A2AMessage.timestamp ≠
      some e0.timestamp := by
  decide

/-- Claim C5: if the target agent is registered and its handler raises
during delivery (`dispatch_message` evaluates to `Except.error e`), the
exception is caught by `_deliver_message` and `send_message` returns the
structured `delivery_failed` result carrying the exception's message,
instead of propagating the exception — in the embedding `send_message` is a
total function, so it never raises to the caller. -/
theorem claim_C5 (c : A2ACommunicator) (m : A2AMessage) (target : Agent)
    (e : String)
    (hreg : dictGet c.agent_registry m.to_agent = some target)
    (hraise : dispatch_message target m = Except.error e) :
    (send_message c m).2 = SendResult.delivery_failed e := by
  unfold send_message deliver_message
  simp [hreg, hraise]

/-- An agent whose journal handler raises, used as a concrete registered
target. -/
def raisingAgent : Agent :=
  { hasProcessEmotionalJournal := true
    hasCreateStudyPlan := false
    process_emotional_journal := fun _ => Except.error "boom"
    create_study_plan := fun _ => Except.ok "plan" }

/-- A communicator with the single registered agent `"emotional"`. -/
def oneAgentState : A2ACommunicator :=
  register_agent A2ACommunicator.empty "emotional" raisingAgent

/-- A task request whose payload has the journal shape, so delivery routes
into the raising handler. -/
def journalMsg : A2AMessage :=
  A2AMessage.init MessageType.TASK_REQUEST "root" "emotional"
    { task := some { hasJournalEntry := true, hasSubjects := false }
      dataItems := 0 } none 0

theorem claim_C5_witness :
    (send_message oneAgentState journalMsg).2 =
      SendResult.delivery_failed "boom" :=
  claim_C5 oneAgentState journalMsg raisingAgent "boom" rfl rfl

/-- Claim C6: a `TASK_REQUEST` delivered to a registered agent whose task
payload matches neither supported shape (the journal check
`hasattr(agent, 'process_emotional_journal') and "journal_entry" in
task_data` and the study check `hasattr(agent, 'create_study_plan') and
"subjects" in task_data` both fail) yields the structured
`task_rejected / unsupported_task_type` result; in the embedding
`send_message` is total, so nothing is raised to the caller. -/
theorem claim_C6 (c : A2ACommunicator) (m : A2AMessage) (target : Agent)
    (hreg : dictGet c.agent_registry m.to_agent = some target)
    (htype : m.message_type = MessageType.TASK_REQUEST)
    (hj : (target.hasProcessEmotionalJournal &&
      (task_data_of m).hasJournalEntry) = false)
    (hs : (target.hasCreateStudyPlan && (task_data_of m).hasSubjects)
      = false) :
    (send_message c m).2 = SendResult.task_rejected "unsupported_task_type" := by
  unfold send_message deliver_message dispatch_message handle_task_request
  simp [hreg, htype, hj, hs, pure, Except.pure]

/-- A task request whose payload has the subjects shape; the registered
`raisingAgent` lacks `create_study_plan` and the payload lacks
`journal_entry`, so neither shape matches. -/
def subjectsMsg : A2AMessage :=
  A2AMessage.init MessageType.TASK_REQUEST "root" "emotional"
    { task := some { hasJournalEntry := false, hasSubjects := true }
      dataItems := 0 } none 0

theorem claim_C6_witness :
    (send_message oneAgentState subjectsMsg).2 =
      SendResult.task_rejected "unsupported_task_type" :=
  claim_C6 oneAgentState subjectsMsg raisingAgent rfl rfl rfl rfl

theorem broadcast_go_keys (from_agent : String) (message_type : MessageType)
    (content : Content) (now : Nat) (names : List String) :
    ∀ (acc : A2ACommunicator × List (String × SendResult)),
      names.Nodup → (∀ n ∈ names, dictGet acc.2 n = none) →
      (names.foldl (broadcast_step from_agent message_type content now)
          acc).2.map Prod.fst =
        acc.2.map Prod.fst ++ names.filter (fun n => n ≠ from_agent) := by
  induction names with
  | nil => intro acc _ _; simp
  | cons n rest ih =>
    intro acc hnodup hfresh
    have hn_notin : n ∉ rest := (List.nodup_cons.mp hnodup).1
    have hnodup' : rest.Nodup := (List.nodup_cons.mp hnodup).2
    rw [List.foldl_cons]
    by_cases hne : n = from_agent
    · have hstep : broadcast_step from_agent message_type content now acc n
          = acc := by
        simp [broadcast_step, hne]
      rw [hstep, ih acc hnodup'
        (fun mm hmm => hfresh mm (List.mem_cons_of_mem _ hmm))]
      simp [List.filter_cons, hne]
    · have hstep : broadcast_step from_agent message_type content now acc n =
          ((send_message acc.1
              (A2AMessage.init message_type from_agent n content none now)).1,
            dictSet acc.2 n
              (send_message acc.1
                (A2AMessage.init message_type from_agent n content none now)).2) := by
        simp [broadcast_step, hne]
      have hfresh_n : dictGet acc.2 n = none :=
        hfresh n (List.mem_cons_self _ _)
      have hfresh' : ∀ mm ∈ rest,
          dictGet (dictSet acc.2 n
            (send_message acc.1
              (A2AMessage.init message_type from_agent n content none now)).2)
            mm = none := by
        intro mm hmm
        have hmmn : mm ≠ n := fun h => hn_notin (h ▸ hmm)
        rw [dictGet_dictSet_ne _ _ _ _ hmmn]
        exact hfresh mm (List.mem_cons_of_mem _ hmm)
      rw [hstep, ih _ hnodup' hfresh',
        dictSet_of_get_none _ _ _ hfresh_n]
      simp [List.filter_cons, hne]

theorem length_filter_ne (l : List String) (a : String) (hnodup : l.Nodup)
    (ha : a ∈ l) :
    (l.filter (fun n => n ≠ a)).length = l.length - 1 := by
  induction l with
  | nil => cases ha
  | cons b rest ih =>
    have hb_notin : b ∉ rest := (List.nodup_cons.mp hnodup).1
    have hnodup' : rest.Nodup := (List.nodup_cons.mp hnodup).2
    by_cases hba : b = a
    · subst hba
      simp [List.filter_cons]
      intro x hx hcontra
      exact hb_notin (hcontra ▸ hx)
    · have ha' : a ∈ rest := by
        rcases List.mem_cons.mp ha with h | h
        · exact absurd h.symm hba
        · exact h
      have hpos : 0 < rest.length :=
        List.length_pos.mpr (List.ne_nil_of_mem ha')
      have hfl := ih hnodup' ha'
      rw [List.filter_cons, if_pos (decide_eq_true hba)]
      simp only [List.length_cons, hfl]
      omega

/-- Claim C7: when the sender is one of the registered agents and the
registry keys are distinct (as Python dict keys are), `broadcast_message`
produces one result entry per registered agent other than the sender — the
result keys are exactly the registry keys with the sender filtered out, in
registry order — and therefore exactly `N - 1` envelopes are sent for a
registry of size `N` containing the sender. -/
theorem claim_C7 (c : A2ACommunicator) (from_agent : String)
    (message_type : MessageType) (content : Content) (now : Nat)
    (hmem : from_agent ∈ dictKeys c.agent_registry)
    (hnodup : (dictKeys c.agent_registry).Nodup) :
    (broadcast_message c from_agent message_type content now).2.map Prod.fst =
      (dictKeys c.agent_registry).filter (fun n => n ≠ from_agent) ∧
    (broadcast_message c from_agent message_type content now).2.length =
      (dictKeys c.agent_registry).length - 1 := by
  have hkeys :
      (broadcast_message c from_agent message_type content now).2.map
        Prod.fst =
      (dictKeys c.agent_registry).filter (fun n => n ≠ from_agent) := by
    have := broadcast_go_keys from_agent message_type content now
      (dictKeys c.agent_registry) (c, []) hnodup (by intro n _; rfl)
    simpa [broadcast_message] using this
  refine ⟨hkeys, ?_⟩
  have hlen : ((broadcast_message c from_agent message_type content
      now).2.map Prod.fst).length =
      (broadcast_message c from_agent message_type content now).2.length :=
    List.length_map _ _
  rw [← hlen, hkeys, length_filter_ne _ _ hnodup hmem]

/-- A communicator with three registered agents, the sender `"root"` among
them. -/
def threeAgentState : A2ACommunicator :=
  register_agent (register_agent oneAgentState "study" raisingAgent)
    "root" raisingAgent

theorem claim_C7_witness :
    (broadcast_message threeAgentState "root" MessageType.COORDINATION
        { task := none, dataItems := 0 } 7).2.map Prod.fst =
      (dictKeys threeAgentState.agent_registry).filter
        (fun n => n ≠ "root") ∧
    (broadcast_message threeAgentState "root" MessageType.COORDINATION
        { task := none, dataItems := 0 } 7).2.length =
      (dictKeys threeAgentState.agent_registry).length - 1 :=
  claim_C7 threeAgentState "root" MessageType.COORDINATION
    { task := none, dataItems := 0 } 7 (by decide) (by decide)

theorem dictGet_map_snd {α β : Type} (f : α → β)
    (l : List (String × α)) (k : String) :
    dictGet (l.map fun p => (p.1, f p.2)) k = (dictGet l k).map f := by
  induction l with
  | nil => rfl
  | cons p rest ih =>
    obtain ⟨k0, v0⟩ := p
    by_cases h : k0 = k <;> simp [dictGet, h, ih]

/-- Claim C8: `execute_parallel` returns one entry per registered task, in
order — the result keys are exactly the registered names; a task whose run
returns normally contributes its value and a task that raises contributes
the error entry built from its exception message; and replacing a task
(for example by one that raises) leaves every other task's entry
unchanged. -/
theorem claim_C8 (ex : ParallelAgentExecutor) :
    (execute_parallel ex).map Prod.fst = ex.agents.map Prod.fst ∧
    (∀ name f, dictGet ex.agents name = some f →
      dictGet (execute_parallel ex) name = some (run_agent f)) ∧
    (∀ name g k, k ≠ name →
      dictGet (execute_parallel (add_agent ex name g)) k =
        dictGet (execute_parallel ex) k) := by
  refine ⟨?_, ?_, ?_⟩
  · simp [execute_parallel]
  · intro name f hf
    unfold execute_parallel
    rw [dictGet_map_snd, hf]
    rfl
  · intro name g k hk
    unfold execute_parallel add_agent
    rw [dictGet_map_snd, dictGet_map_snd,
      dictGet_dictSet_ne _ _ _ _ hk]

/-- A concrete executor with two succeeding tasks. -/
def exW : ParallelAgentExecutor :=
  add_agent (add_agent ParallelAgentExecutor.empty "a" (Except.ok "va"))
    "b" (Except.ok "vb")

theorem claim_C8_witness :
    dictGet (execute_parallel exW) "a" =
      some (run_agent (Except.ok "va")) ∧
    dictGet (execute_parallel (add_agent exW "b" (Except.error "boom")))
        "a" = dictGet (execute_parallel exW) "a" :=
  ⟨(claim_C8 exW).2.1 "a" (Except.ok "va") rfl,
   (claim_C8 exW).2.2 "b" (Except.error "boom") "a" (by decide)⟩

/-- Claim C3 (amended to caps `K ≥ 1`): `compact_memory` leaves the user's
history with length `min (previous length) K`; when the previous length
exceeds `K` it retains exactly the last `K` records in original order and
reports `before / after / removed` as the old length, `K` and their
difference; when the length is at or below `K` it changes nothing and
reports no compaction — and a second compaction with the same `K` is always
reported as `no_compaction_needed`. -/
theorem claim_C3 (memories : MemoryBank) (user_id : String) (K : Nat)
    (hK : 1 ≤ K) :
    ((dictGet (compact_memory memories user_id K).1 user_id).getD []).length =
      min ((dictGet memories user_id).getD []).length K ∧
    (((dictGet memories user_id).getD []).length > K →
      dictGet (compact_memory memories user_id K).1 user_id =
        some (((dictGet memories user_id).getD []).drop
          (((dictGet memories user_id).getD []).length - K)) ∧
      (compact_memory memories user_id K).2 =
        CompactReport.compacted
          ((dictGet memories user_id).getD []).length K
          (((dictGet memories user_id).getD []).length - K) K) ∧
    (((dictGet memories user_id).getD []).length ≤ K →
      compact_memory memories user_id K =
        (memories, CompactReport.no_compaction_needed)) ∧
    (compact_memory (compact_memory memories user_id K).1 user_id K).2 =
      CompactReport.no_compaction_needed := by
  have hK0 : K ≠ 0 := by omega
  rcases hget : dictGet memories user_id with _ | history
  · have hc : compact_memory memories user_id K =
        (memories, CompactReport.no_compaction_needed) := by
      simp only [compact_memory, hget]
    refine ⟨?_, ?_, fun _ => hc, ?_⟩
    · rw [hc, hget]
      simp
    · intro hgt
      simp at hgt
    · rw [hc]
      simp only [compact_memory, hget]
  · simp only [Option.getD_some]
    by_cases hlen : history.length > K
    · have hslice : pySliceLast history K =
          history.drop (history.length - K) := by
        unfold pySliceLast
        rw [if_neg hK0]
      have hdroplen : (history.drop (history.length - K)).length = K := by
        rw [List.length_drop]
        omega
      have hc : compact_memory memories user_id K =
          (dictSet memories user_id (history.drop (history.length - K)),
           CompactReport.compacted history.length K (history.length - K) K) := by
        simp only [compact_memory, hget]
        rw [if_pos hlen, hslice, hdroplen]
      have hgetc : dictGet (compact_memory memories user_id K).1 user_id =
          some (history.drop (history.length - K)) := by
        rw [hc]
        exact dictGet_dictSet_self _ _ _
      refine ⟨?_, fun _ => ⟨hgetc, by rw [hc]⟩,
        fun h => absurd hlen (by omega), ?_⟩
      · rw [hgetc]
        simp only [Option.getD_some, hdroplen]
        omega
      · rw [hc]
        simp only [compact_memory, dictGet_dictSet_self, hdroplen]
        rw [if_neg (by omega)]
    · have hc : compact_memory memories user_id K =
          (memories, CompactReport.no_compaction_needed) := by
        simp only [compact_memory, hget]
        rw [if_neg hlen]
      refine ⟨?_, fun h => absurd h hlen, fun _ => hc, ?_⟩
      · rw [hc, hget]
        simp only [Option.getD_some]
        omega
      · rw [hc]
        simp only [compact_memory, hget]
        rw [if_neg hlen]

/-- The bank holding a single record for user `"u1"`. -/
def bank1 : MemoryBank := store_emotional_pattern [] "u1" "d1" 0

/-- Claim C3 counterexample: with the cap `K = 0` and one stored record the
claim fails — Python's `history[-0:]` is the whole list, so `compact` with
cap 0 removes nothing (the length stays 1 instead of `min 1 0 = 0`) yet
reports `compacted: true` with `after = 1` and `removed = 0`. -/
theorem claim_C3_counterexample :
    ((dictGet (compact_memory bank1 "u1" 0).1 "u1").getD []).length ≠
      min ((dictGet bank1 "u1").getD []).length 0 ∧
    (compact_memory bank1 "u1" 0).2 = CompactReport.compacted 1 1 0 0 := by
  decide

/-- A bank with twenty appended records for user `"u1"`, the spec's
compaction scenario. -/
def bank20 : MemoryBank :=
  appendAll [] "u1" ((List.range 20).map fun i => (toString i, i))

theorem claim_C3_witness :
    1 ≤ 15 ∧
    ((dictGet (compact_memory bank20 "u1" 15).1 "u1").getD []).length =
      min ((dictGet bank20 "u1").getD []).length 15 ∧
    (compact_memory bank20 "u1" 15).2 =
      CompactReport.compacted 20 15 5 15 :=
  ⟨by decide,
   (claim_C3 bank20 "u1" 15 (by decide)).1,
   ((claim_C3 bank20 "u1" 15 (by decide)).2.1 (by decide)).2⟩

theorem store_history (memories : MemoryBank) (user_id : String)
    (d : String) (t : Nat) :
    (dictGet (store_emotional_pattern memories user_id d t) user_id).getD []
      = ((dictGet memories user_id).getD []) ++
        [{ data := d
           timestamp := t
           pattern_id := "pattern_" ++ toString
             (((dictGet memories user_id).getD []).length + 1) }] := by
  unfold store_emotional_pattern
  rw [dictGet_dictSet_self]
  rfl

/-- Claim C4 (amended): in the absence of compaction the labels are fresh
and increasing — a history built purely by appends carries the labels
`pattern_1, pattern_2, …, pattern_n` in that order, each append stamping
the next number `length + 1`.  (Compaction breaks this: it shortens the
list that the next label is computed from, so labels get reused — see the
counterexample.) -/
theorem claim_C4 (ds : List (String × Nat)) (user_id : String) :
    ((dictGet (appendAll [] user_id ds) user_id).getD []).map
        MemRecord.pattern_id =
      (List.range ds.length).map
        (fun i => "pattern_" ++ toString (i + 1)) := by
  suffices h : ∀ (memories : MemoryBank) (n : Nat),
      ((dictGet memories user_id).getD []).map MemRecord.pattern_id =
        (List.range n).map (fun i => "pattern_" ++ toString (i + 1)) →
      ((dictGet memories user_id).getD []).length = n →
      ((dictGet (appendAll memories user_id ds) user_id).getD []).map
          MemRecord.pattern_id =
        (List.range (n + ds.length)).map
          (fun i => "pattern_" ++ toString (i + 1)) by
    simpa using h [] 0 rfl rfl
  induction ds with
  | nil => intro memories n h1 _; simpa [appendAll] using h1
  | cons d rest ih =>
    intro memories n h1 h2
    have hstep : appendAll memories user_id (d :: rest) =
        appendAll (store_emotional_pattern memories user_id d.1 d.2)
          user_id rest := rfl
    have hst := store_history memories user_id d.1 d.2
    have h1' : ((dictGet (store_emotional_pattern memories user_id d.1 d.2)
        user_id).getD []).map MemRecord.pattern_id =
        (List.range (n + 1)).map (fun i => "pattern_" ++ toString (i + 1)) := by
      rw [hst, List.map_append, h1, h2, List.range_succ, List.map_append]
      rfl
    have h2' : ((dictGet (store_emotional_pattern memories user_id d.1 d.2)
        user_id).getD []).length = n + 1 := by
      rw [hst, List.length_append, h2]
      rfl
    have := ih (store_emotional_pattern memories user_id d.1 d.2) (n + 1)
      h1' h2'
    rw [hstep, this]
    have harith : n + 1 + rest.length = n + (d :: rest).length := by
      simp [List.length_cons]
      omega
    rw [harith]

/-- A bank where two appends, a compaction to cap 1 and a further append
have taken place for user `"u"`. -/
def reuseBank : MemoryBank :=
  store_emotional_pattern
    ((compact_memory
      (store_emotional_pattern (store_emotional_pattern [] "u" "d1" 0)
        "u" "d2" 1)
      "u" 1).1)
    "u" "d3" 2

/-- Claim C4 counterexample: after appending two records (labels
`pattern_1`, `pattern_2`), compacting to cap 1 (retaining the `pattern_2`
record) and appending once more, the new record is labelled from the
shrunken length (`1 + 1 = 2`) — the history holds two distinct records
both labelled `pattern_2`, so the per-user labels are neither increasing
nor unused. -/
theorem claim_C4_counterexample :
    ((dictGet reuseBank "u").getD []).map MemRecord.pattern_id =
      ["pattern_2", "pattern_2"] ∧
    ¬ (((dictGet reuseBank "u").getD []).map MemRecord.pattern_id).Nodup := by
  decide

/-- Claim C9 (amended): `start`'s guard checks only for `RUNNING`: starting
an already-running operation is a strict no-op (state unchanged, no worker
thread launched), but from EVERY other status — `PENDING`, and equally
`PAUSED`, `COMPLETED` or `FAILED` — `start` marks the operation running,
clears `should_stop` and launches the worker; it is not restricted to
`PENDING`. -/
theorem claim_C9 (op : LongRunningOperation) (now : Nat) :
    (op.status = OperationStatus.RUNNING →
      LongRunningOperation.start op now = (op, false)) ∧
    (op.status ≠ OperationStatus.RUNNING →
      (LongRunningOperation.start op now).2 = true ∧
      (LongRunningOperation.start op now).1.status =
        OperationStatus.RUNNING ∧
      (LongRunningOperation.start op now).1.should_stop = false) := by
  constructor <;> intro h <;> simp [LongRunningOperation.start, h]

/-- A freshly created operation. -/
def opInitW : LongRunningOperation := LongRunningOperation.init "op1" "demo" 0

/-- The operation after `start` and a normal completion of its target. -/
def opDoneW : LongRunningOperation :=
  wrapper_finish (LongRunningOperation.start opInitW 1).1 (Except.ok "v") 2

/-- Claim C9 counterexample: an operation that has normally `COMPLETED` is
not in `PENDING`, yet calling `start` on it launches the target again and
returns it to `RUNNING` — refuting that `start` does not restart from any
non-`PENDING` state. -/
theorem claim_C9_counterexample :
    opDoneW.status = OperationStatus.COMPLETED ∧
    (LongRunningOperation.start opDoneW 3).2 = true ∧
    (LongRunningOperation.start opDoneW 3).1.status =
      OperationStatus.RUNNING := by
  decide

/-- A running operation, for the witness. -/
def opRunW : LongRunningOperation := (LongRunningOperation.start opInitW 1).1

theorem claim_C9_witness :
    LongRunningOperation.start opRunW 5 = (opRunW, false) :=
  (claim_C9 opRunW 5).1 rfl

/-- Claim C10: `stop` unconditionally forces the status to `FAILED` — from
every state, terminal ones included — while leaving `result` untouched; in
particular a `stop` issued after the worker completed normally (status
`COMPLETED`, result stored) overwrites the status with `FAILED` and keeps
the stored result in place. -/
theorem claim_C10 (op : LongRunningOperation) (v : String) (t1 t2 : Nat) :
    (LongRunningOperation.stop op t2).status = OperationStatus.FAILED ∧
    (LongRunningOperation.stop op t2).result = op.result ∧
    (LongRunningOperation.stop op t2).should_stop = true ∧
    (LongRunningOperation.stop (wrapper_finish op (Except.ok v) t1)
        t2).status = OperationStatus.FAILED ∧
    (LongRunningOperation.stop (wrapper_finish op (Except.ok v) t1)
        t2).result = some v := by
  refine ⟨rfl, rfl, rfl, rfl, ?_⟩
  unfold wrapper_finish LongRunningOperation.stop
  by_cases h : op.should_stop <;> simp [h]
